import Mathlib

/-!
# Green Meter — verification of the emissions calculator core

Shallow embedding of the computational core of the Green Meter dashboard
(`src/app.py` and `src/app2.py`). The core is a set of pure functions
mapping an activity-inputs record and an adjustment-parameters record to
a ten-category emissions breakdown and aggregate totals. Python float
arithmetic is modelled with exact rationals (`ℚ`); the spec itself states
its laws over exact reals.

The two source files each define `compute_baseline`, `compute_optimized`,
`total` and the inline percent-reduction expression `pct`; they are
embedded separately in namespaces `App` (for `src/app.py`) and `App2`
(for `src/app2.py`) so that their extensional equality can be stated.
-/

/-- The activity-inputs record (the `i` dict of both source files):
nine numeric fields plus a sequence of subcontractor-reported tons. -/
structure ActivityInputs where
  cars_km : ℚ
  trucks_km : ℚ
  buses_km : ℚ
  forklifts_hr : ℚ
  planes_hr : ℚ
  lighting_kwh : ℚ
  heating_kwhth : ℚ
  cooling_kwh : ℚ
  computing_kwh : ℚ
  subcontractors_tons : List ℚ
deriving DecidableEq

/-- The adjustment-parameters record (the `s` sliders dict of both
source files): three percentages. -/
structure AdjustmentParameters where
  ev_share_pct : ℚ
  km_reduction_pct : ℚ
  plane_load_pct : ℚ
deriving DecidableEq

/-- The per-category emissions breakdown: the dict returned by
`compute_baseline` / `compute_optimized`, with the ten fixed category
keys of `CATS` as fields (tons CO2e per year each). -/
@[ext]
structure EmissionBreakdown where
  cars : ℚ
  trucks : ℚ
  buses : ℚ
  forklifts : ℚ
  planes : ℚ
  lighting : ℚ
  heating : ℚ
  cooling : ℚ
  computing : ℚ
  subcontractors : ℚ
deriving DecidableEq

namespace App

/-- `KG_PER_TON = 1000.0` (src/app.py line 44). -/
def KG_PER_TON : ℚ := 1000

/-- The `EF` emission-factor dict of src/app.py (lines 45-49),
kg CO2e per unit; keys not in the dict are irrelevant (mapped to 0). -/
def EF (k : String) : ℚ :=
  if k = "cars" then 18/100
  else if k = "trucks" then 90/100
  else if k = "buses" then 110/100
  else if k = "forklifts" then 4
  else if k = "planes" then 9000
  else if k = "lighting" then 42/100
  else if k = "heating" then 20/100
  else if k = "cooling" then 42/100
  else if k = "computing" then 42/100
  else 0

/-- `tons_from_kg` of src/app.py line 72. -/
def tons_from_kg (kg : ℚ) : ℚ := kg / KG_PER_TON

/-- `compute_baseline` of src/app.py lines 73-85. -/
def compute_baseline (i : ActivityInputs) : EmissionBreakdown :=
  { cars := tons_from_kg (i.cars_km * EF "cars")
    trucks := tons_from_kg (i.trucks_km * EF "trucks")
    buses := tons_from_kg (i.buses_km * EF "buses")
    forklifts := tons_from_kg (i.forklifts_hr * EF "forklifts")
    planes := tons_from_kg (i.planes_hr * EF "planes")
    lighting := tons_from_kg (i.lighting_kwh * EF "lighting")
    heating := tons_from_kg (i.heating_kwhth * EF "heating")
    cooling := tons_from_kg (i.cooling_kwh * EF "cooling")
    computing := tons_from_kg (i.computing_kwh * EF "computing")
    subcontractors := i.subcontractors_tons.sum }

/-- `compute_optimized` of src/app.py lines 86-92: baseline with the
`cars` and `planes` entries overwritten. -/
def compute_optimized (i : ActivityInputs) (s : AdjustmentParameters) : EmissionBreakdown :=
  let base := compute_baseline i
  let km_opt := i.cars_km * (1 - s.km_reduction_pct / 100)
  let intensity := 1 - (70/100) * (s.ev_share_pct / 100)
  { base with
    cars := tons_from_kg (km_opt * EF "cars" * intensity)
    planes := tons_from_kg (i.planes_hr * EF "planes" * (s.plane_load_pct / 100)) }

/-- `total` of src/app.py line 93: the sum of the ten entries of the
breakdown dict, one per key of `CATS` in order. -/
def total (d : EmissionBreakdown) : ℚ :=
  d.cars + d.trucks + d.buses + d.forklifts + d.planes +
    d.lighting + d.heating + d.cooling + d.computing + d.subcontractors

/-- The percent-reduction expression of src/app.py lines 139-140:
`reduction = base_total - opt_total`;
`pct = (reduction / base_total * 100) if base_total else 0`
(Python float truthiness: a float is falsy exactly when it is zero). -/
def pct (base_total opt_total : ℚ) : ℚ :=
  let reduction := base_total - opt_total
  if base_total ≠ 0 then reduction / base_total * 100 else 0

/-- The `inputs` part of the `SAMPLE` fixture, src/app.py lines 62-67. -/
def SAMPLE_inputs : ActivityInputs :=
  { cars_km := 180000, trucks_km := 100000, buses_km := 60000, forklifts_hr := 1500
    planes_hr := 250, lighting_kwh := 90000, heating_kwhth := 40000
    cooling_kwh := 220000, computing_kwh := 60000, subcontractors_tons := [120, 45, 30] }

/-- The `sliders` part of the `SAMPLE` fixture, src/app.py line 68. -/
def SAMPLE_sliders : AdjustmentParameters :=
  { ev_share_pct := 20, km_reduction_pct := 5, plane_load_pct := 50 }

end App

namespace App2

/-- `KG_PER_TON = 1000.0` (src/app2.py line 59). -/
def KG_PER_TON : ℚ := 1000

/-- The `EF` emission-factor dict of src/app2.py (lines 60-64). -/
def EF (k : String) : ℚ :=
  if k = "cars" then 18/100
  else if k = "trucks" then 90/100
  else if k = "buses" then 110/100
  else if k = "forklifts" then 4
  else if k = "planes" then 9000
  else if k = "lighting" then 42/100
  else if k = "heating" then 20/100
  else if k = "cooling" then 42/100
  else if k = "computing" then 42/100
  else 0

/-- `tons_from_kg` of src/app2.py lines 90-91. -/
def tons_from_kg (kg : ℚ) : ℚ := kg / KG_PER_TON

/-- `compute_baseline` of src/app2.py lines 93-105. -/
def compute_baseline (i : ActivityInputs) : EmissionBreakdown :=
  { cars := tons_from_kg (i.cars_km * EF "cars")
    trucks := tons_from_kg (i.trucks_km * EF "trucks")
    buses := tons_from_kg (i.buses_km * EF "buses")
    forklifts := tons_from_kg (i.forklifts_hr * EF "forklifts")
    planes := tons_from_kg (i.planes_hr * EF "planes")
    lighting := tons_from_kg (i.lighting_kwh * EF "lighting")
    heating := tons_from_kg (i.heating_kwhth * EF "heating")
    cooling := tons_from_kg (i.cooling_kwh * EF "cooling")
    computing := tons_from_kg (i.computing_kwh * EF "computing")
    subcontractors := i.subcontractors_tons.sum }

/-- `compute_optimized` of src/app2.py lines 107-115 (identical to the
src/app.py version except that the divisors are written `100.0`). -/
def compute_optimized (i : ActivityInputs) (s : AdjustmentParameters) : EmissionBreakdown :=
  let base := compute_baseline i
  let km_opt := i.cars_km * (1 - s.km_reduction_pct / 100)
  let intensity := 1 - (70/100) * (s.ev_share_pct / 100)
  { base with
    cars := tons_from_kg (km_opt * EF "cars" * intensity)
    planes := tons_from_kg (i.planes_hr * EF "planes" * (s.plane_load_pct / 100)) }

/-- `total` of src/app2.py lines 117-118. -/
def total (d : EmissionBreakdown) : ℚ :=
  d.cars + d.trucks + d.buses + d.forklifts + d.planes +
    d.lighting + d.heating + d.cooling + d.computing + d.subcontractors

/-- The percent-reduction expression of src/app2.py lines 209-210. -/
def pct (base_total opt_total : ℚ) : ℚ :=
  let reduction := base_total - opt_total
  if base_total ≠ 0 then reduction / base_total * 100 else 0

end App2

/-- C1: for every ActivityInputs record, `compute_baseline` returns a
breakdown in which each of the nine factor-driven categories equals
activity_measure × its emission factor (cars 0.18, trucks 0.90,
buses 1.10, forklifts 4.0, planes 9000.0, lighting 0.42, heating 0.20,
cooling 0.42, computing 0.42) divided by 1000, and the subcontractors
category is the plain sum of the subcontractor values; the output has
exactly these ten entries (the full `EmissionBreakdown` record is
determined by the equality). -/
theorem C1_compute_baseline_formulas (i : ActivityInputs) :
    App.compute_baseline i =
      { cars := i.cars_km * (18/100) / 1000
        trucks := i.trucks_km * (90/100) / 1000
        buses := i.buses_km * (110/100) / 1000
        forklifts := i.forklifts_hr * 4 / 1000
        planes := i.planes_hr * 9000 / 1000
        lighting := i.lighting_kwh * (42/100) / 1000
        heating := i.heating_kwhth * (20/100) / 1000
        cooling := i.cooling_kwh * (42/100) / 1000
        computing := i.computing_kwh * (42/100) / 1000
        subcontractors := i.subcontractors_tons.sum } := by
  simp [App.compute_baseline, App.tons_from_kg, App.EF, App.KG_PER_TON]

/-- C2: for every ActivityInputs record and every AdjustmentParameters
record, `compute_optimized` returns the baseline breakdown with exactly
two categories overwritten: cars becomes
`(cars_km × (1 − km_reduction_pct/100)) × 0.18 × (1 − 0.70 × (ev_share_pct/100)) / 1000`
and planes becomes `(planes_hr × 9000 × (plane_load_pct/100)) / 1000`. -/
theorem C2_compute_optimized_overwrites (i : ActivityInputs) (s : AdjustmentParameters) :
    App.compute_optimized i s =
      { App.compute_baseline i with
        cars := i.cars_km * (1 - s.km_reduction_pct / 100) * (18/100) *
          (1 - (70/100) * (s.ev_share_pct / 100)) / 1000
        planes := i.planes_hr * 9000 * (s.plane_load_pct / 100) / 1000 } := by
  simp [App.compute_optimized, App.compute_baseline, App.tons_from_kg, App.EF, App.KG_PER_TON]

/-- C3: identity-adjustment law — for every ActivityInputs record,
`compute_optimized inputs {ev_share_pct := 0, km_reduction_pct := 0, plane_load_pct := 100}`
equals `compute_baseline inputs` exactly, in every one of the ten categories. -/
theorem C3_identity_adjustment (i : ActivityInputs) :
    App.compute_optimized i
        { ev_share_pct := 0, km_reduction_pct := 0, plane_load_pct := 100 } =
      App.compute_baseline i := by
  ext <;>
    simp [App.compute_optimized, App.compute_baseline, App.tons_from_kg, App.EF, App.KG_PER_TON]

/-- C4: frame condition — for every ActivityInputs record and every
AdjustmentParameters record, the eight categories other than cars and
planes in `compute_optimized inputs adjustments` equal the corresponding
entries of `compute_baseline inputs`. -/
theorem C4_frame_condition (i : ActivityInputs) (s : AdjustmentParameters) :
    (App.compute_optimized i s).trucks = (App.compute_baseline i).trucks ∧
    (App.compute_optimized i s).buses = (App.compute_baseline i).buses ∧
    (App.compute_optimized i s).forklifts = (App.compute_baseline i).forklifts ∧
    (App.compute_optimized i s).lighting = (App.compute_baseline i).lighting ∧
    (App.compute_optimized i s).heating = (App.compute_baseline i).heating ∧
    (App.compute_optimized i s).cooling = (App.compute_baseline i).cooling ∧
    (App.compute_optimized i s).computing = (App.compute_baseline i).computing ∧
    (App.compute_optimized i s).subcontractors = (App.compute_baseline i).subcontractors :=
  ⟨rfl, rfl, rfl, rfl, rfl, rfl, rfl, rfl⟩

/-- C5: `pct` equals `(base_total − opt_total) / base_total × 100` whenever
`base_total` is nonzero, equals 0 when `base_total` is 0, and in particular
`pct 0 0 = 0`; `pct` is a total function, so no division-by-zero error
can occur. -/
theorem C5_pct_division_by_zero :
    (∀ b o : ℚ, b ≠ 0 → App.pct b o = (b - o) / b * 100) ∧
    (∀ o : ℚ, App.pct 0 o = 0) ∧
    App.pct 0 0 = 0 := by
  refine ⟨fun b o hb => ?_, fun o => ?_, rfl⟩
  · simp [App.pct, hb]
  · simp [App.pct]

/-- Witness for C5 at concrete inputs: the nonzero branch evaluated at
`b = 200, o = 50` and the zero branch at `b = 0, o = 7`. -/
theorem C5_pct_division_by_zero_witness :
    App.pct 200 50 = (200 - 50) / 200 * 100 ∧ App.pct 0 7 = 0 :=
  ⟨C5_pct_division_by_zero.1 200 50 (by norm_num), C5_pct_division_by_zero.2.1 7⟩

/-- C9: the computational cores of src/app.py and src/app2.py are
extensionally equal: `compute_baseline`, `compute_optimized` and `total`
as embedded from src/app.py agree with the functions of the same names
embedded from src/app2.py on every input. -/
theorem C9_app_app2_extensionally_equal :
    (∀ i : ActivityInputs, App.compute_baseline i = App2.compute_baseline i) ∧
    (∀ (i : ActivityInputs) (s : AdjustmentParameters),
      App.compute_optimized i s = App2.compute_optimized i s) ∧
    (∀ d : EmissionBreakdown, App.total d = App2.total d) :=
  ⟨fun _ => rfl, fun _ _ => rfl, fun _ => rfl⟩

/-- Helper (shared): every entry of the baseline breakdown is non-negative
when every numeric field and every subcontractor value is non-negative. -/
theorem baseline_breakdown_nonneg (i : ActivityInputs)
    (h1 : 0 ≤ i.cars_km) (h2 : 0 ≤ i.trucks_km) (h3 : 0 ≤ i.buses_km)
    (h4 : 0 ≤ i.forklifts_hr) (h5 : 0 ≤ i.planes_hr) (h6 : 0 ≤ i.lighting_kwh)
    (h7 : 0 ≤ i.heating_kwhth) (h8 : 0 ≤ i.cooling_kwh) (h9 : 0 ≤ i.computing_kwh)
    (h10 : ∀ x ∈ i.subcontractors_tons, 0 ≤ x) :
    0 ≤ (App.compute_baseline i).cars ∧ 0 ≤ (App.compute_baseline i).trucks ∧
    0 ≤ (App.compute_baseline i).buses ∧ 0 ≤ (App.compute_baseline i).forklifts ∧
    0 ≤ (App.compute_baseline i).planes ∧ 0 ≤ (App.compute_baseline i).lighting ∧
    0 ≤ (App.compute_baseline i).heating ∧ 0 ≤ (App.compute_baseline i).cooling ∧
    0 ≤ (App.compute_baseline i).computing ∧ 0 ≤ (App.compute_baseline i).subcontractors := by
  refine ⟨?_, ?_, ?_, ?_, ?_, ?_, ?_, ?_, ?_, ?_⟩
  · exact div_nonneg (mul_nonneg h1 (by simp [App.EF] <;> norm_num)) (by norm_num [App.KG_PER_TON])
  · exact div_nonneg (mul_nonneg h2 (by simp [App.EF] <;> norm_num)) (by norm_num [App.KG_PER_TON])
  · exact div_nonneg (mul_nonneg h3 (by simp [App.EF] <;> norm_num)) (by norm_num [App.KG_PER_TON])
  · exact div_nonneg (mul_nonneg h4 (by simp [App.EF] <;> norm_num)) (by norm_num [App.KG_PER_TON])
  · exact div_nonneg (mul_nonneg h5 (by simp [App.EF] <;> norm_num)) (by norm_num [App.KG_PER_TON])
  · exact div_nonneg (mul_nonneg h6 (by simp [App.EF] <;> norm_num)) (by norm_num [App.KG_PER_TON])
  · exact div_nonneg (mul_nonneg h7 (by simp [App.EF] <;> norm_num)) (by norm_num [App.KG_PER_TON])
  · exact div_nonneg (mul_nonneg h8 (by simp [App.EF] <;> norm_num)) (by norm_num [App.KG_PER_TON])
  · exact div_nonneg (mul_nonneg h9 (by simp [App.EF] <;> norm_num)) (by norm_num [App.KG_PER_TON])
  · exact List.sum_nonneg h10

/-- C7: for every ActivityInputs record in which every numeric field and
every subcontractor value is non-negative, every one of the ten entries of
`compute_baseline` is non-negative. -/
theorem C7_baseline_nonneg (i : ActivityInputs)
    (h1 : 0 ≤ i.cars_km) (h2 : 0 ≤ i.trucks_km) (h3 : 0 ≤ i.buses_km)
    (h4 : 0 ≤ i.forklifts_hr) (h5 : 0 ≤ i.planes_hr) (h6 : 0 ≤ i.lighting_kwh)
    (h7 : 0 ≤ i.heating_kwhth) (h8 : 0 ≤ i.cooling_kwh) (h9 : 0 ≤ i.computing_kwh)
    (h10 : ∀ x ∈ i.subcontractors_tons, 0 ≤ x) :
    0 ≤ (App.compute_baseline i).cars ∧ 0 ≤ (App.compute_baseline i).trucks ∧
    0 ≤ (App.compute_baseline i).buses ∧ 0 ≤ (App.compute_baseline i).forklifts ∧
    0 ≤ (App.compute_baseline i).planes ∧ 0 ≤ (App.compute_baseline i).lighting ∧
    0 ≤ (App.compute_baseline i).heating ∧ 0 ≤ (App.compute_baseline i).cooling ∧
    0 ≤ (App.compute_baseline i).computing ∧ 0 ≤ (App.compute_baseline i).subcontractors :=
  baseline_breakdown_nonneg i h1 h2 h3 h4 h5 h6 h7 h8 h9 h10

/-- Witness for C7: the non-negativity theorem applied at the shipped
sample fixture, whose fields are all non-negative. -/
theorem C7_baseline_nonneg_witness :
    0 ≤ (App.compute_baseline App.SAMPLE_inputs).cars ∧
    0 ≤ (App.compute_baseline App.SAMPLE_inputs).trucks ∧
    0 ≤ (App.compute_baseline App.SAMPLE_inputs).buses ∧
    0 ≤ (App.compute_baseline App.SAMPLE_inputs).forklifts ∧
    0 ≤ (App.compute_baseline App.SAMPLE_inputs).planes ∧
    0 ≤ (App.compute_baseline App.SAMPLE_inputs).lighting ∧
    0 ≤ (App.compute_baseline App.SAMPLE_inputs).heating ∧
    0 ≤ (App.compute_baseline App.SAMPLE_inputs).cooling ∧
    0 ≤ (App.compute_baseline App.SAMPLE_inputs).computing ∧
    0 ≤ (App.compute_baseline App.SAMPLE_inputs).subcontractors :=
  C7_baseline_nonneg App.SAMPLE_inputs (by decide) (by decide) (by decide) (by decide)
    (by decide) (by decide) (by decide) (by decide) (by decide) (by decide)

/-- C6: monotonicity of `compute_optimized` in the three adjustment
parameters, for inputs with non-negative fields and percentages in
[0,100]: raising `ev_share_pct` never increases the cars entry, raising
`km_reduction_pct` never increases the cars entry, and raising
`plane_load_pct` never decreases the planes entry. -/
theorem C6_compute_optimized_monotone (i : ActivityInputs)
    (hcar : 0 ≤ i.cars_km) (hpla : 0 ≤ i.planes_hr) :
    (∀ ev ev' km pl : ℚ, 0 ≤ km → km ≤ 100 → ev ≤ ev' →
      (App.compute_optimized i ⟨ev', km, pl⟩).cars ≤
        (App.compute_optimized i ⟨ev, km, pl⟩).cars) ∧
    (∀ ev km km' pl : ℚ, 0 ≤ ev → ev ≤ 100 → km ≤ km' →
      (App.compute_optimized i ⟨ev, km', pl⟩).cars ≤
        (App.compute_optimized i ⟨ev, km, pl⟩).cars) ∧
    (∀ ev km pl pl' : ℚ, pl ≤ pl' →
      (App.compute_optimized i ⟨ev, km, pl⟩).planes ≤
        (App.compute_optimized i ⟨ev, km, pl'⟩).planes) := by
  refine ⟨fun ev ev' km pl hkm0 hkm1 hev => ?_, fun ev km km' pl hev0 hev1 hkm => ?_,
    fun ev km pl pl' hpl => ?_⟩
  · simp only [App.compute_optimized, App.tons_from_kg, App.EF, App.KG_PER_TON]
    norm_num
    nlinarith [mul_nonneg (mul_nonneg hcar (show (0:ℚ) ≤ 1 - km / 100 by linarith))
      (show (0:ℚ) ≤ ev' - ev by linarith)]
  · simp only [App.compute_optimized, App.tons_from_kg, App.EF, App.KG_PER_TON]
    norm_num
    nlinarith [mul_nonneg (mul_nonneg hcar (show (0:ℚ) ≤ 1 - (70/100) * (ev / 100) by linarith))
      (show (0:ℚ) ≤ km' - km by linarith)]
  · simp [App.compute_optimized, App.tons_from_kg, App.EF, App.KG_PER_TON]
    nlinarith [mul_nonneg hpla (show (0:ℚ) ≤ pl' - pl by linarith)]

/-- Witness for C6: the monotonicity theorem applied at the sample
fixture — raising EV share 20→30 and km reduction 5→10 does not increase
the cars entry, and raising plane load 50→80 does not decrease the
planes entry. -/
theorem C6_compute_optimized_monotone_witness :
    (App.compute_optimized App.SAMPLE_inputs ⟨30, 5, 50⟩).cars ≤
      (App.compute_optimized App.SAMPLE_inputs ⟨20, 5, 50⟩).cars ∧
    (App.compute_optimized App.SAMPLE_inputs ⟨20, 10, 50⟩).cars ≤
      (App.compute_optimized App.SAMPLE_inputs ⟨20, 5, 50⟩).cars ∧
    (App.compute_optimized App.SAMPLE_inputs ⟨20, 5, 50⟩).planes ≤
      (App.compute_optimized App.SAMPLE_inputs ⟨20, 5, 80⟩).planes :=
  ⟨(C6_compute_optimized_monotone App.SAMPLE_inputs (by decide) (by decide)).1
      20 30 5 50 (by norm_num) (by norm_num) (by norm_num),
    (C6_compute_optimized_monotone App.SAMPLE_inputs (by decide) (by decide)).2.1
      20 5 10 50 (by norm_num) (by norm_num) (by norm_num),
    (C6_compute_optimized_monotone App.SAMPLE_inputs (by decide) (by decide)).2.2
      20 5 50 80 (by norm_num)⟩

/-- C8: the shipped sample fixture — cars baseline 32.4 tons, cars
optimized 26.4708 tons (≈ 26.47), planes baseline 2250 tons, planes
optimized 1125 tons, subcontractors 195 tons in both breakdowns,
baseline total exactly 2802.8 tons, optimized total exactly
1671.8708 tons (≈ 1671.9, bracketed below within 0.1). -/
theorem C8_sample_scenario :
    (App.compute_baseline App.SAMPLE_inputs).cars = 162/5 ∧
    (App.compute_optimized App.SAMPLE_inputs App.SAMPLE_sliders).cars = 66177/2500 ∧
    (2647/100 ≤ (App.compute_optimized App.SAMPLE_inputs App.SAMPLE_sliders).cars ∧
      (App.compute_optimized App.SAMPLE_inputs App.SAMPLE_sliders).cars ≤ 2648/100) ∧
    (App.compute_baseline App.SAMPLE_inputs).planes = 2250 ∧
    (App.compute_optimized App.SAMPLE_inputs App.SAMPLE_sliders).planes = 1125 ∧
    (App.compute_baseline App.SAMPLE_inputs).subcontractors = 195 ∧
    (App.compute_optimized App.SAMPLE_inputs App.SAMPLE_sliders).subcontractors = 195 ∧
    App.total (App.compute_baseline App.SAMPLE_inputs) = 14014/5 ∧
    App.total (App.compute_optimized App.SAMPLE_inputs App.SAMPLE_sliders) = 4179677/2500 ∧
    (16718/10 ≤ App.total (App.compute_optimized App.SAMPLE_inputs App.SAMPLE_sliders) ∧
      App.total (App.compute_optimized App.SAMPLE_inputs App.SAMPLE_sliders) ≤ 16719/10) := by
  refine ⟨?_, ?_, ⟨?_, ?_⟩, ?_, ?_, ?_, ?_, ?_, ?_, ⟨?_, ?_⟩⟩ <;>
    simp [App.compute_baseline, App.compute_optimized, App.total, App.tons_from_kg,
      App.EF, App.KG_PER_TON, App.SAMPLE_inputs, App.SAMPLE_sliders] <;>
    norm_num

/-- Helper (shared): `pct` on a nonzero baseline total reduces to the
explicit reduction formula. -/
theorem pct_of_ne_zero (b o : ℚ) (hb : b ≠ 0) : App.pct b o = (b - o) / b * 100 := by
  simp [App.pct, hb]

/-- Helper (shared): `pct` on a zero baseline total is 0. -/
theorem pct_of_zero (o : ℚ) : App.pct 0 o = 0 := by
  simp [App.pct]

/-- C10: optimization never hurts — for every ActivityInputs record with
all fields non-negative and every AdjustmentParameters record with each
percentage in [0,100], the optimized total is at most the baseline total,
and the reported percent reduction is non-negative. -/
theorem C10_optimization_never_hurts (i : ActivityInputs) (s : AdjustmentParameters)
    (h1 : 0 ≤ i.cars_km) (h2 : 0 ≤ i.trucks_km) (h3 : 0 ≤ i.buses_km)
    (h4 : 0 ≤ i.forklifts_hr) (h5 : 0 ≤ i.planes_hr) (h6 : 0 ≤ i.lighting_kwh)
    (h7 : 0 ≤ i.heating_kwhth) (h8 : 0 ≤ i.cooling_kwh) (h9 : 0 ≤ i.computing_kwh)
    (h10 : ∀ x ∈ i.subcontractors_tons, 0 ≤ x)
    (he0 : 0 ≤ s.ev_share_pct) (he1 : s.ev_share_pct ≤ 100)
    (hk0 : 0 ≤ s.km_reduction_pct) (hk1 : s.km_reduction_pct ≤ 100)
    (hl0 : 0 ≤ s.plane_load_pct) (hl1 : s.plane_load_pct ≤ 100) :
    App.total (App.compute_optimized i s) ≤ App.total (App.compute_baseline i) ∧
    0 ≤ App.pct (App.total (App.compute_baseline i))
        (App.total (App.compute_optimized i s)) := by
  obtain ⟨b1, b2, b3, b4, b5, b6, b7, b8, b9, b10⟩ :=
    baseline_breakdown_nonneg i h1 h2 h3 h4 h5 h6 h7 h8 h9 h10
  have hTb : 0 ≤ App.total (App.compute_baseline i) := by
    simp only [App.total]
    linarith
  have hle : App.total (App.compute_optimized i s) ≤ App.total (App.compute_baseline i) := by
    simp [App.total, App.compute_optimized, App.compute_baseline, App.tons_from_kg,
      App.EF, App.KG_PER_TON]
    nlinarith [mul_le_mul_of_nonneg_left
        (mul_le_one (show 1 - s.km_reduction_pct / 100 ≤ 1 by linarith)
          (show (0:ℚ) ≤ 1 - (70/100) * (s.ev_share_pct / 100) by linarith)
          (show 1 - (70/100) * (s.ev_share_pct / 100) ≤ 1 by linarith)) h1,
      mul_nonneg h5 (show (0:ℚ) ≤ 100 - s.plane_load_pct by linarith)]
  refine ⟨hle, ?_⟩
  rcases eq_or_ne (App.total (App.compute_baseline i)) 0 with h0 | h0
  · rw [h0, pct_of_zero]
  · rw [pct_of_ne_zero _ _ h0]
    exact mul_nonneg (div_nonneg (by linarith) hTb) (by norm_num)

/-- Witness for C10: the theorem applied at the shipped sample fixture
and its shipped slider settings. -/
theorem C10_optimization_never_hurts_witness :
    App.total (App.compute_optimized App.SAMPLE_inputs App.SAMPLE_sliders) ≤
      App.total (App.compute_baseline App.SAMPLE_inputs) ∧
    0 ≤ App.pct (App.total (App.compute_baseline App.SAMPLE_inputs))
        (App.total (App.compute_optimized App.SAMPLE_inputs App.SAMPLE_sliders)) :=
  C10_optimization_never_hurts App.SAMPLE_inputs App.SAMPLE_sliders
    (by decide) (by decide) (by decide) (by decide) (by decide) (by decide)
    (by decide) (by decide) (by decide) (by decide)
    (by decide) (by decide) (by decide) (by decide) (by decide) (by decide)
